import Mathlib

/-!
Shallow embedding of `src/screenpipe-app-tauri/src-tauri/src/analytics.rs`.

JSON values are modelled by an inductive `Json`; the HTTP transport is
modelled by passing the response (or a transport error) as an explicit
argument, and each network call made by a function is returned in a list
of outbound payloads, so that theorems can state "no network call was
issued" or "this exact payload was posted".
-/

set_option autoImplicit false

namespace Analytics

/-- JSON values, as produced by serde_json. Objects are association lists of
string keys to values (serde maps hold at most one entry per key). -/
inductive Json where
  | null
  | bool (b : Bool)
  | num (n : Int)
  | str (s : String)
  | arr (xs : List Json)
  | obj (kvs : List (String × Json))

/-- First-occurrence lookup in an association list (serde map lookup). -/
def lookupKv (kvs : List (String × Json)) (k : String) : Option Json :=
  match kvs with
  | [] => none
  | (k₀, v₀) :: rest => if k₀ = k then some v₀ else lookupKv rest k

/-- Map insertion: overwrite the first binding of `k` in place, or append. -/
def insertKv (kvs : List (String × Json)) (k : String) (v : Json) :
    List (String × Json) :=
  match kvs with
  | [] => [(k, v)]
  | (k₀, v₀) :: rest => if k₀ = k then (k, v) :: rest else (k₀, v₀) :: insertKv rest k v

/-- `Map::extend`: insert every binding of `ext` into `base`, overwriting. -/
def extendKvs (base ext : List (String × Json)) : List (String × Json) :=
  ext.foldl (fun acc kv => insertKv acc kv.1 kv.2) base

/-- `serde_json::Value::index` (`value["key"]`): field of an object, or Null. -/
def Json.index (j : Json) (k : String) : Json :=
  match j with
  | .obj kvs => (lookupKv kvs k).getD .null
  | _ => .null

/-- `Value::as_str`: `Some` exactly on strings. -/
def Json.as_str : Json → Option String
  | .str s => some s
  | _ => none

/-- `Value::as_object`: `Some` exactly on objects. -/
def Json.as_object : Json → Option (List (String × Json))
  | .obj kvs => some kvs
  | _ => none

/-- `reqwest::StatusCode::is_success()`: the 2xx range. -/
def statusIsSuccess (status : Nat) : Bool :=
  200 ≤ status && status ≤ 299

/-- An HTTP response to a POST to the collector; only the status is read. -/
structure HttpResponse where
  status : Nat

/-- An HTTP response from the local health endpoint: its status, and the
result of decoding its body as JSON (`response.json()`). -/
structure HealthResponse where
  status : Nat
  body : Except String Json

/-- Host metadata read from `sysinfo::System` (`System::new_all()`). -/
structure SystemInfo where
  name : Option String
  os_version : Option String
  kernel_version : Option String
  host_name : Option String
  cpu_count : Nat
  total_memory : Nat

/-- The `AnalyticsManager` struct. The `enabled` flag lives behind an async
mutex in the source; each operation reads it once, so it is a plain `Bool`
here. `client` carries no state that the embedded logic reads. -/
structure AnalyticsManager where
  posthog_api_key : String
  distinct_id : String
  interval_secs : Nat
  enabled : Bool
  api_host : String
  local_api_base_url : String

/-- `AnalyticsManager::new`. `debug_assertions` stands for the compile-time
`cfg!(debug_assertions)` flag. -/
def AnalyticsManager.new (posthog_api_key distinct_id : String)
    (interval_hours : Nat) (local_api_base_url : String)
    (debug_assertions : Bool) : AnalyticsManager :=
  { posthog_api_key := posthog_api_key
    distinct_id := distinct_id
    interval_secs := interval_hours * 3600
    enabled := !debug_assertions
    api_host := "https://eu.i.posthog.com"
    local_api_base_url := local_api_base_url }

/-- The base `properties` object of `send_event` (lines 54-63). -/
def basePropsKvs (m : AnalyticsManager) (sys : SystemInfo) :
    List (String × Json) :=
  [("distinct_id", .str m.distinct_id),
   ("$lib", .str "rust-reqwest"),
   ("os_name", .str (sys.name.getD "")),
   ("os_version", .str (sys.os_version.getD "")),
   ("kernel_version", .str (sys.kernel_version.getD "")),
   ("host_name", .str (sys.host_name.getD "")),
   ("cpu_count", .num sys.cpu_count),
   ("total_memory", .num sys.total_memory)]

/-- Lines 66-70: `payload["properties"].as_object_mut()` then
`extend(props.as_object().unwrap_or(&Map::new()))`. -/
def mergeIntoProperties (payload : Json) (props : Json) : Json :=
  match payload with
  | .obj kvs =>
    match lookupKv kvs "properties" with
    | some (.obj pkvs) =>
        .obj (insertKv kvs "properties"
          (.obj (extendKvs pkvs ((props.as_object).getD []))))
    | _ => payload
  | _ => payload

/-- The payload `send_event` builds (lines 51-70): base payload, then the
optional extra properties merged into its `properties` object. -/
def buildPayload (m : AnalyticsManager) (sys : SystemInfo) (event : String)
    (properties : Option Json) : Json :=
  let payload : Json :=
    .obj [("api_key", .str m.posthog_api_key),
          ("event", .str event),
          ("properties", .obj (basePropsKvs m sys))]
  match properties with
  | none => payload
  | some props => mergeIntoProperties payload props

/-- `send_event` (lines 39-79). Returns the list of payloads POSTed to the
collector together with the result of the Rust function. `transport` is the
outcome of the POST when one is issued. -/
def send_event (m : AnalyticsManager) (sys : SystemInfo) (event : String)
    (properties : Option Json) (transport : Except String HttpResponse) :
    List Json × Except String Unit :=
  if m.enabled = false then ([], .ok ())
  else
    let payload := buildPayload m sys event properties
    match transport with
    | .error e => ([payload], .error e)
    | .ok resp =>
        if statusIsSuccess resp.status = false then
          ([payload], .error ("PostHog API error: " ++ toString resp.status))
        else
          ([payload], .ok ())

/-- Success-path result of `check_recording_health` (lines 129-146). -/
def healthReport (health : Json) : Json :=
  let frame_status := ((health.index "frame_status").as_str).getD "unknown"
  let audio_status := ((health.index "audio_status").as_str).getD "unknown"
  let ui_status := ((health.index "ui_status").as_str).getD "unknown"
  let is_healthy :=
    (frame_status == "ok" || frame_status == "disabled") &&
    (audio_status == "ok" || audio_status == "disabled") &&
    (ui_status == "ok" || ui_status == "disabled")
  .obj [("is_healthy", .bool is_healthy),
        ("frame_status", .str frame_status),
        ("audio_status", .str audio_status),
        ("ui_status", .str ui_status)]

/-- `check_recording_health` (lines 115-147). `resp` is the outcome of the
GET to `{local_api_base_url}/health`: a transport error, or a response with
a status and a body-decoding outcome. -/
def check_recording_health (resp : Except String HealthResponse) :
    Except String Json :=
  match resp with
  | .error e => .error e
  | .ok r =>
    if statusIsSuccess r.status = false then
      .ok (.obj [("is_healthy", .bool false),
                 ("frame_status", .str "error"),
                 ("audio_status", .str "error"),
                 ("ui_status", .str "error"),
                 ("error", .str ("Health check failed with status: " ++
                                 toString r.status))])
    else
      match r.body with
      | .error e => .error e
      | .ok health => .ok (healthReport health)

/-- `PipeInfo` (lines 215-219). -/
structure PipeInfo where
  id : String
  enabled : Bool

/-- `PipeListResponse` (lines 221-226). -/
structure PipeListResponse where
  data : List PipeInfo
  success : Bool

/-- The enabled-pipes projection of `track_enabled_pipes` (lines 153-158). -/
def enabledPipes (r : PipeListResponse) : List String :=
  (r.data.filter (fun pipe => pipe.enabled)).map (fun pipe => pipe.id)

/-- The properties object of the `"enabled_pipes_hourly"` event
(lines 160-163). -/
def pipeProps (r : PipeListResponse) : Json :=
  .obj [("enabled_pipes", .arr ((enabledPipes r).map .str)),
        ("enabled_pipe_count", .num (enabledPipes r).length)]

/-- `track_enabled_pipes` (lines 149-167). `resp` is the decoded response of
the GET to `{local_api_base_url}/pipes/list` (a transport or decode error is
propagated by `?`); `transport` is the outcome of the POST that
`send_event` issues when one happens. -/
def track_enabled_pipes (m : AnalyticsManager) (sys : SystemInfo)
    (resp : Except String PipeListResponse)
    (transport : Except String HttpResponse) :
    List Json × Except String Unit :=
  match resp with
  | .error e => ([], .error e)
  | .ok r => send_event m sys "enabled_pipes_hourly" (some (pipeProps r)) transport

/-- A log line emitted during a periodic cycle. -/
inductive LogEntry where
  | errorLog (msg : String)
  | warnLog (msg : String)

/-- The degraded health status built in the loop when the health check
fails (lines 92-98). -/
def degradedHealth (e : String) : Json :=
  .obj [("is_healthy", .bool false),
        ("frame_status", .str "error"),
        ("audio_status", .str "error"),
        ("ui_status", .str "error"),
        ("error", .str e)]

/-- External inputs consumed by one iteration of the periodic loop. -/
structure CycleEnv where
  healthResp : Except String HealthResponse
  stillRunningTransport : Except String HttpResponse
  pipesResp : Except String PipeListResponse
  pipesTransport : Except String HttpResponse

/-- What one iteration produced: the payloads posted and the log lines. -/
structure CycleResult where
  sent : List Json
  logs : List LogEntry

/-- One enabled-or-not iteration of `start_periodic_event` (lines 84-112),
after the tick: check health (falling back to a degraded status on error),
send `"app_still_running"`, then track enabled pipes; failures of the two
sends are logged and swallowed. -/
def periodic_cycle (m : AnalyticsManager) (sys : SystemInfo) (env : CycleEnv) :
    CycleResult :=
  if m.enabled = false then ⟨[], []⟩
  else
    let hs : Json × List LogEntry :=
      match check_recording_health env.healthResp with
      | .ok status => (status, [])
      | .error e =>
          (degradedHealth e,
           [.errorLog ("failed to check recording health: " ++ e)])
    let sendRes := send_event m sys "app_still_running" (some hs.1)
        env.stillRunningTransport
    let sendLogs : List LogEntry :=
      match sendRes.2 with
      | .ok _ => []
      | .error e => [.errorLog ("failed to send periodic posthog event: " ++ e)]
    let pipesRes := track_enabled_pipes m sys env.pipesResp env.pipesTransport
    let pipesLogs : List LogEntry :=
      match pipesRes.2 with
      | .ok _ => []
      | .error e =>
          [.warnLog ("failed to track enabled pipes: " ++ e ++
                     ", is screenpipe up?")]
    ⟨sendRes.1 ++ pipesRes.1, hs.2 ++ sendLogs ++ pipesLogs⟩

/-- Which background tasks `start_analytics` spawns. -/
inductive SpawnedTask where
  | sendAppStarted
  | periodicLoop

/-- Result of `start_analytics`: the returned handle and the spawn log. -/
structure StartResult where
  manager : Except String AnalyticsManager
  tasks : List SpawnedTask

/-- The development-mode condition of `start_analytics` (lines 176-177):
the compile-time debug flag, or `TAURI_ENV_DEBUG` equal to `"true"`
(`env` is the value of that environment variable, absent as `none`). -/
def devCondition (debug_assertions : Bool) (env : Option String) : Bool :=
  debug_assertions || ((env.getD "false") == "true")

/-- `start_analytics` (lines 170-213). -/
def start_analytics (unique_id posthog_api_key : String)
    (interval_hours : Nat) (local_api_base_url : String)
    (debug_assertions : Bool) (env : Option String) : StartResult :=
  if devCondition debug_assertions env then
    { manager := .ok (AnalyticsManager.new posthog_api_key unique_id
        interval_hours local_api_base_url debug_assertions)
      tasks := [] }
  else
    { manager := .ok (AnalyticsManager.new posthog_api_key unique_id
        interval_hours local_api_base_url debug_assertions)
      tasks := [.sendAppStarted, .periodicLoop] }

/-! ### Helper lemmas about association-list lookup and merge -/

theorem lookupKv_insertKv (l : List (String × Json)) (k : String) (v : Json)
    (k' : String) :
    lookupKv (insertKv l k v) k' = if k = k' then some v else lookupKv l k' := by
  induction l with
  | nil =>
      by_cases h : k = k' <;> simp [insertKv, lookupKv, h]
  | cons hd tl ih =>
      obtain ⟨k₀, v₀⟩ := hd
      by_cases h₀ : k₀ = k
      · subst h₀
        by_cases h : k₀ = k' <;> simp [insertKv, lookupKv, h]
      · by_cases h : k₀ = k'
        · subst h
          have hkk : ¬ k = k₀ := fun hc => h₀ hc.symm
          simp [insertKv, lookupKv, h₀, hkk, ih]
        · simp [insertKv, lookupKv, h₀, h, ih]

theorem lookupKv_eq_none_of_not_mem (l : List (String × Json)) (k : String)
    (h : k ∉ l.map Prod.fst) : lookupKv l k = none := by
  induction l with
  | nil => rfl
  | cons hd tl ih =>
      obtain ⟨k₀, v₀⟩ := hd
      simp only [List.map_cons, List.mem_cons, not_or] at h
      have hne : k₀ ≠ k := fun hc => h.1 hc.symm
      simpa [lookupKv, hne] using ih h.2

theorem lookupKv_extendKvs (base ext : List (String × Json))
    (hnd : (ext.map Prod.fst).Nodup) (k : String) :
    lookupKv (extendKvs base ext) k =
      match lookupKv ext k with
      | some v => some v
      | none => lookupKv base k := by
  induction ext generalizing base with
  | nil => simp [extendKvs, lookupKv]
  | cons hd tl ih =>
      obtain ⟨k₀, v₀⟩ := hd
      simp only [List.map_cons, List.nodup_cons] at hnd
      have hstep : extendKvs base ((k₀, v₀) :: tl) =
          extendKvs (insertKv base k₀ v₀) tl := by
        simp [extendKvs]
      rw [hstep, ih _ hnd.2]
      by_cases h : k₀ = k
      · subst h
        have htl : lookupKv tl k₀ = none :=
          lookupKv_eq_none_of_not_mem tl k₀ hnd.1
        simp [lookupKv, htl, lookupKv_insertKv]
      · cases htl : lookupKv tl k <;>
          simp [lookupKv, h, htl, lookupKv_insertKv]

theorem lookupKv_extendKvs_of_none (base ext : List (String × Json))
    (k : String) (h : lookupKv ext k = none) :
    lookupKv (extendKvs base ext) k = lookupKv base k := by
  induction ext generalizing base with
  | nil => simp [extendKvs]
  | cons hd tl ih =>
      obtain ⟨k₀, v₀⟩ := hd
      have hstep : extendKvs base ((k₀, v₀) :: tl) =
          extendKvs (insertKv base k₀ v₀) tl := by
        simp [extendKvs]
      by_cases h₀ : k₀ = k
      · subst h₀
        simp [lookupKv] at h
      · simp only [lookupKv, if_neg h₀] at h
        rw [hstep, ih _ h, lookupKv_insertKv, if_neg h₀]

/-! ### Concrete fixtures used by witnesses and counterexamples -/

/-- A manager built in a debug build: `enabled` starts false. -/
def devManager : AnalyticsManager :=
  AnalyticsManager.new "key" "user-1" 1 "http://localhost:3030" true

/-- A manager built in a release build: `enabled` starts true. -/
def prodManager : AnalyticsManager :=
  AnalyticsManager.new "key" "user-1" 1 "http://localhost:3030" false

/-- Sample host metadata. -/
def sampleSystem : SystemInfo :=
  { name := some "macos"
    os_version := some "14.0"
    kernel_version := some "23.0"
    host_name := some "host"
    cpu_count := 8
    total_memory := 16384 }

/-! ### Claims -/

/-- Claim C2: if the enabled flag is false, `send_event` returns `Ok` and
issues no network call (the list of transport invocations is empty), for
every event name, extra-properties argument and transport behaviour. -/
theorem send_event_disabled_no_call (m : AnalyticsManager) (sys : SystemInfo)
    (event : String) (properties : Option Json)
    (transport : Except String HttpResponse) (h : m.enabled = false) :
    send_event m sys event properties transport = ([], .ok ()) := by
  simp [send_event, h]

/-- Witness for C2 at a concrete disabled manager. -/
theorem send_event_disabled_no_call_witness :
    devManager.enabled = false ∧
    send_event devManager sampleSystem "app_started" none (.ok ⟨200⟩) =
      ([], .ok ()) :=
  ⟨rfl, send_event_disabled_no_call devManager sampleSystem "app_started" none
    (.ok ⟨200⟩) rfl⟩

/-- Claim C3: on a non-success HTTP status, `check_recording_health` returns
`Ok` with `is_healthy = false`, all three statuses `"error"` and an error
string embedding the status code; errors are propagated exactly for
transport failures and undecodable bodies. -/
theorem health_degraded_on_http_error (status : Nat) (body : Except String Json)
    (h : statusIsSuccess status = false) :
    check_recording_health (.ok ⟨status, body⟩) =
      .ok (.obj [("is_healthy", .bool false),
                 ("frame_status", .str "error"),
                 ("audio_status", .str "error"),
                 ("ui_status", .str "error"),
                 ("error", .str ("Health check failed with status: " ++
                                 toString status))]) ∧
    (∀ e, check_recording_health (.error e) = .error e) ∧
    (∀ st e, statusIsSuccess st = true →
      check_recording_health (.ok ⟨st, .error e⟩) = .error e) := by
  refine ⟨?_, ?_, ?_⟩
  · simp [check_recording_health, h]
  · intro e; rfl
  · intro st e hst; simp [check_recording_health, hst]

/-- Witness for C3 at HTTP status 500. -/
theorem health_degraded_on_http_error_witness :
    statusIsSuccess 500 = false ∧
    check_recording_health (.ok ⟨500, .ok .null⟩) =
      .ok (.obj [("is_healthy", .bool false),
                 ("frame_status", .str "error"),
                 ("audio_status", .str "error"),
                 ("ui_status", .str "error"),
                 ("error", .str ("Health check failed with status: " ++
                                 toString (500 : Nat)))]) :=
  ⟨by decide, (health_degraded_on_http_error 500 (.ok .null) (by decide)).1⟩

/-- A sample fully-healthy decoded health body. -/
def sampleHealthBody : Json :=
  .obj [("frame_status", .str "ok"),
        ("audio_status", .str "disabled"),
        ("ui_status", .str "ok")]

/-- A sample health body with a missing `audio_status` field and a
non-string `ui_status` field. -/
def sparseHealthBody : Json :=
  .obj [("frame_status", .str "ok"), ("ui_status", .num 3)]

/-- Claim C1: on every decoded health body, the computed `is_healthy` is
true iff each of the three extracted statuses is `"ok"` or `"disabled"`;
any other value in any of the three forces it to false. -/
theorem is_healthy_iff_ok_or_disabled (health : Json) (status : Nat)
    (hs : statusIsSuccess status = true) :
    check_recording_health (.ok ⟨status, .ok health⟩) =
      .ok (healthReport health) ∧
    ((healthReport health).index "is_healthy" = .bool true ↔
      ((((health.index "frame_status").as_str).getD "unknown" = "ok" ∨
        ((health.index "frame_status").as_str).getD "unknown" = "disabled") ∧
       (((health.index "audio_status").as_str).getD "unknown" = "ok" ∨
        ((health.index "audio_status").as_str).getD "unknown" = "disabled") ∧
       (((health.index "ui_status").as_str).getD "unknown" = "ok" ∨
        ((health.index "ui_status").as_str).getD "unknown" = "disabled"))) := by
  constructor
  · simp [check_recording_health, hs]
  · simp [healthReport, Json.index, lookupKv, Bool.and_eq_true, Bool.or_eq_true,
      and_assoc]

/-- Witness for C1: a healthy body and an unhealthy one. -/
theorem is_healthy_iff_ok_or_disabled_witness :
    statusIsSuccess 200 = true ∧
    (healthReport sampleHealthBody).index "is_healthy" = .bool true ∧
    ¬ (healthReport sparseHealthBody).index "is_healthy" = .bool true := by
  have h1 := (is_healthy_iff_ok_or_disabled sampleHealthBody 200 (by decide)).2
  have h2 := (is_healthy_iff_ok_or_disabled sparseHealthBody 200 (by decide)).2
  refine ⟨by decide, ?_, ?_⟩
  · exact h1.mpr (by simp [sampleHealthBody, Json.index, lookupKv, Json.as_str])
  · intro hc
    have := h2.mp hc
    simp [sparseHealthBody, Json.index, lookupKv, Json.as_str] at this

/-- Claim C8: on a successfully decoded body, each of the three status
fields is passed through verbatim when present as a string, and becomes
`"unknown"` when absent or not a string. -/
theorem health_fields_default_unknown (health : Json) (status : Nat)
    (hs : statusIsSuccess status = true) (out : Json)
    (hout : check_recording_health (.ok ⟨status, .ok health⟩) = .ok out) :
    (out.index "frame_status" =
        .str (((health.index "frame_status").as_str).getD "unknown") ∧
     out.index "audio_status" =
        .str (((health.index "audio_status").as_str).getD "unknown") ∧
     out.index "ui_status" =
        .str (((health.index "ui_status").as_str).getD "unknown")) ∧
    (∀ s, health.index "frame_status" = .str s →
        out.index "frame_status" = .str s) ∧
    (∀ s, health.index "audio_status" = .str s →
        out.index "audio_status" = .str s) ∧
    (∀ s, health.index "ui_status" = .str s →
        out.index "ui_status" = .str s) ∧
    ((health.index "frame_status").as_str = none →
        out.index "frame_status" = .str "unknown") ∧
    ((health.index "audio_status").as_str = none →
        out.index "audio_status" = .str "unknown") ∧
    ((health.index "ui_status").as_str = none →
        out.index "ui_status" = .str "unknown") := by
  have hrep : out = healthReport health := by
    simp [check_recording_health, hs] at hout
    exact hout.symm
  subst hrep
  have hf : (healthReport health).index "frame_status" =
      .str (((health.index "frame_status").as_str).getD "unknown") := by
    simp [healthReport, Json.index, lookupKv]
  have ha : (healthReport health).index "audio_status" =
      .str (((health.index "audio_status").as_str).getD "unknown") := by
    simp [healthReport, Json.index, lookupKv]
  have hu : (healthReport health).index "ui_status" =
      .str (((health.index "ui_status").as_str).getD "unknown") := by
    simp [healthReport, Json.index, lookupKv]
  refine ⟨⟨hf, ha, hu⟩, ?_, ?_, ?_, ?_, ?_, ?_⟩
  · intro s h; rw [hf, h]; rfl
  · intro s h; rw [ha, h]; rfl
  · intro s h; rw [hu, h]; rfl
  · intro h; rw [hf, h]; rfl
  · intro h; rw [ha, h]; rfl
  · intro h; rw [hu, h]; rfl

/-- Witness for C8: a body where one field is present, one absent, one a
non-string. -/
theorem health_fields_default_unknown_witness :
    statusIsSuccess 200 = true ∧
    check_recording_health (.ok ⟨200, .ok sparseHealthBody⟩) =
      .ok (healthReport sparseHealthBody) ∧
    (healthReport sparseHealthBody).index "frame_status" = .str "ok" ∧
    (healthReport sparseHealthBody).index "audio_status" = .str "unknown" ∧
    (healthReport sparseHealthBody).index "ui_status" = .str "unknown" := by
  have h := health_fields_default_unknown sparseHealthBody 200 (by decide)
    (healthReport sparseHealthBody) rfl
  refine ⟨by decide, rfl, ?_, ?_, ?_⟩
  · simpa [sparseHealthBody, Json.index, lookupKv, Json.as_str] using h.1.1
  · simpa [sparseHealthBody, Json.index, lookupKv, Json.as_str] using h.1.2.1
  · simpa [sparseHealthBody, Json.index, lookupKv, Json.as_str] using h.1.2.2

/-- Claim C6: the pipe census is exactly the ids of the records with
`enabled = true`, in the original order (a sublist of the full id
projection), `enabled_pipe_count` is the length of that projection, and a
failed or undecodable pipes-list response propagates its error with no
degraded-success path (no payload is posted). -/
theorem pipe_census_spec (r : PipeListResponse) :
    (∀ i, i ∈ enabledPipes r ↔
      ∃ p, p ∈ r.data ∧ p.enabled = true ∧ p.id = i) ∧
    (enabledPipes r).Sublist (r.data.map PipeInfo.id) ∧
    (pipeProps r).index "enabled_pipe_count" =
      .num (enabledPipes r).length ∧
    (∀ m sys e t, track_enabled_pipes m sys (.error e) t = ([], .error e)) := by
  refine ⟨?_, ?_, ?_, ?_⟩
  · intro i
    simp only [enabledPipes, List.mem_map, List.mem_filter]
    constructor
    · rintro ⟨p, ⟨hp, hen⟩, hid⟩
      exact ⟨p, hp, hen, hid⟩
    · rintro ⟨p, hp, hen, hid⟩
      exact ⟨p, ⟨hp, hen⟩, hid⟩
  · exact (List.filter_sublist r.data).map PipeInfo.id
  · simp [pipeProps, Json.index, lookupKv]
  · intro m sys e t; rfl

/-- Claim C4: the properties of the payload built with an extension object
are the shallow merge of the base properties with the extension — extension
keys win on collision, base keys absent from the extension keep their base
value. The base properties are those of the payload built with no
extension. -/
theorem send_event_shallow_merge (m : AnalyticsManager) (sys : SystemInfo)
    (event : String) (ext : List (String × Json))
    (hnd : (ext.map Prod.fst).Nodup) (k : String) :
    lookupKv
      ((((buildPayload m sys event (some (.obj ext))).index
          "properties").as_object).getD []) k =
      match lookupKv ext k with
      | some v => some v
      | none =>
          lookupKv
            ((((buildPayload m sys event none).index
                "properties").as_object).getD []) k := by
  have hb : (((buildPayload m sys event none).index
      "properties").as_object).getD [] = basePropsKvs m sys := by
    simp [buildPayload, Json.index, lookupKv, Json.as_object]
  have hm : (((buildPayload m sys event (some (.obj ext))).index
      "properties").as_object).getD [] =
      extendKvs (basePropsKvs m sys) ext := by
    simp [buildPayload, mergeIntoProperties, Json.index, lookupKv, insertKv,
      Json.as_object]
  rw [hb, hm, lookupKv_extendKvs _ _ hnd]

/-- Witness for C4: a colliding key takes the extension value, a
non-colliding base key keeps its base value. -/
theorem send_event_shallow_merge_witness :
    ([("distinct_id", Json.str "override")].map Prod.fst).Nodup ∧
    lookupKv
      ((((buildPayload prodManager sampleSystem "e"
          (some (.obj [("distinct_id", Json.str "override")]))).index
          "properties").as_object).getD []) "distinct_id" =
      some (.str "override") ∧
    lookupKv
      ((((buildPayload prodManager sampleSystem "e"
          (some (.obj [("distinct_id", Json.str "override")]))).index
          "properties").as_object).getD []) "os_name" =
      some (.str "macos") := by
  have h1 := send_event_shallow_merge prodManager sampleSystem "e"
    [("distinct_id", Json.str "override")] (by simp) "distinct_id"
  have h2 := send_event_shallow_merge prodManager sampleSystem "e"
    [("distinct_id", Json.str "override")] (by simp) "os_name"
  refine ⟨by simp, ?_, ?_⟩
  · rw [h1]; rfl
  · rw [h2]; rfl

/-- Claim C10: a non-object extra-properties value never fails and is
silently ignored: `send_event` behaves exactly as with no extra
properties. -/
theorem send_event_nonobject_props_ignored (m : AnalyticsManager)
    (sys : SystemInfo) (event : String) (props : Json)
    (h : props.as_object = none) (t : Except String HttpResponse) :
    send_event m sys event (some props) t = send_event m sys event none t := by
  have hp : buildPayload m sys event (some props) =
      buildPayload m sys event none := by
    simp [buildPayload, mergeIntoProperties, h, extendKvs, insertKv, lookupKv]
  simp only [send_event, hp]

/-- Witness for C10 at a string-valued extra-properties argument. -/
theorem send_event_nonobject_props_ignored_witness :
    Json.as_object (.str "oops") = none ∧
    send_event prodManager sampleSystem "app_started" (some (.str "oops"))
      (.ok ⟨200⟩) =
    send_event prodManager sampleSystem "app_started" none (.ok ⟨200⟩) :=
  ⟨rfl, send_event_nonobject_props_ignored prodManager sampleSystem
    "app_started" (.str "oops") rfl (.ok ⟨200⟩)⟩

/-- Claim C7: in an enabled cycle with a failed health check, the degraded
status is built and `"app_still_running"` is still sent with it, the pipes
sub-step still runs (the posted payloads are exactly those of the two
independent sub-steps), the health failure is logged, and a delivery
failure of the send or a failure of the pipes sub-step is logged without
affecting the other sub-step (the cycle is a total function, so neither
terminates the loop). -/
theorem periodic_cycle_resilient (m : AnalyticsManager) (sys : SystemInfo)
    (env : CycleEnv) (e : String) (hen : m.enabled = true)
    (hh : check_recording_health env.healthResp = .error e) :
    (periodic_cycle m sys env).sent =
      (send_event m sys "app_still_running" (some (degradedHealth e))
        env.stillRunningTransport).1 ++
      (track_enabled_pipes m sys env.pipesResp env.pipesTransport).1 ∧
    LogEntry.errorLog ("failed to check recording health: " ++ e) ∈
      (periodic_cycle m sys env).logs ∧
    (∀ e1, (send_event m sys "app_still_running" (some (degradedHealth e))
        env.stillRunningTransport).2 = .error e1 →
      LogEntry.errorLog ("failed to send periodic posthog event: " ++ e1) ∈
        (periodic_cycle m sys env).logs) ∧
    (∀ e2, (track_enabled_pipes m sys env.pipesResp env.pipesTransport).2 =
        .error e2 →
      LogEntry.warnLog ("failed to track enabled pipes: " ++ e2 ++
        ", is screenpipe up?") ∈ (periodic_cycle m sys env).logs) := by
  refine ⟨?_, ?_, ?_, ?_⟩
  · simp [periodic_cycle, hen, hh]
  · simp [periodic_cycle, hen, hh]
  · intro e1 h1
    simp [periodic_cycle, hen, hh, h1]
  · intro e2 h2
    simp [periodic_cycle, hen, hh, h2]

/-- A cycle environment where the health check, the still-running send and
the pipes-list request all fail. -/
def failingCycleEnv : CycleEnv :=
  { healthResp := .error "connection refused"
    stillRunningTransport := .ok ⟨500⟩
    pipesResp := .error "decode error"
    pipesTransport := .ok ⟨200⟩ }

/-- Witness for C7 at a concrete all-failing environment. -/
theorem periodic_cycle_resilient_witness :
    prodManager.enabled = true ∧
    check_recording_health failingCycleEnv.healthResp =
      .error "connection refused" ∧
    (periodic_cycle prodManager sampleSystem failingCycleEnv).sent =
      (send_event prodManager sampleSystem "app_still_running"
        (some (degradedHealth "connection refused"))
        failingCycleEnv.stillRunningTransport).1 ++
      (track_enabled_pipes prodManager sampleSystem failingCycleEnv.pipesResp
        failingCycleEnv.pipesTransport).1 :=
  ⟨rfl, rfl,
   (periodic_cycle_resilient prodManager sampleSystem failingCycleEnv
      "connection refused" rfl rfl).1⟩

/-- Counterexample to C5 as stated: in a release build
(`debug_assertions = false`) with `TAURI_ENV_DEBUG = "true"` the
development-mode condition holds and no tasks are spawned, yet the returned
enabled flag of the handle is true, not false. -/
theorem start_analytics_dev_enabled_counterexample :
    devCondition false (some "true") = true ∧
    (start_analytics "user-1" "key" 1 "http://localhost:3030" false
      (some "true")).tasks = [] ∧
    ((start_analytics "user-1" "key" 1 "http://localhost:3030" false
      (some "true")).manager.toOption.map AnalyticsManager.enabled) =
      some true := by
  exact ⟨rfl, rfl, rfl⟩

/-- Claim C5 (amended): whenever the development-mode condition (debug
build flag or the debug environment indicator) holds, `start_analytics`
spawns no background tasks; the enabled flag of the handle equals the negation
of the debug build flag alone (so the environment indicator by itself
leaves the handle enabled); in production mode the handle is enabled and
both tasks are spawned. -/
theorem start_analytics_modes (uid key : String) (ih : Nat) (url : String)
    (dbg : Bool) (env : Option String) :
    (devCondition dbg env = true →
      (start_analytics uid key ih url dbg env).tasks = []) ∧
    (start_analytics uid key ih url dbg env).manager =
      .ok (AnalyticsManager.new key uid ih url dbg) ∧
    (AnalyticsManager.new key uid ih url dbg).enabled = !dbg ∧
    (devCondition dbg env = false →
      (start_analytics uid key ih url dbg env).tasks =
        [.sendAppStarted, .periodicLoop] ∧
      (AnalyticsManager.new key uid ih url dbg).enabled = true) := by
  refine ⟨?_, ?_, rfl, ?_⟩
  · intro h; simp [start_analytics, h]
  · by_cases h : devCondition dbg env <;> simp [start_analytics, h]
  · intro h
    have hdbg : dbg = false := by
      rcases Bool.or_eq_false_iff.mp h with ⟨h1, -⟩
      exact h1
    refine ⟨by simp [start_analytics, h], ?_⟩
    simp [AnalyticsManager.new, hdbg]

/-- Witness for C5 (amended): a debug build spawns nothing and is disabled;
a clean release build spawns both tasks and is enabled. -/
theorem start_analytics_modes_witness :
    devCondition true none = true ∧
    (start_analytics "user-1" "key" 1 "http://localhost:3030" true
      none).tasks = [] ∧
    devCondition false none = false ∧
    (start_analytics "user-1" "key" 1 "http://localhost:3030" false
      none).tasks = [SpawnedTask.sendAppStarted, SpawnedTask.periodicLoop] ∧
    (AnalyticsManager.new "key" "user-1" 1 "http://localhost:3030"
      false).enabled = true := by
  have hdev := (start_analytics_modes "user-1" "key" 1 "http://localhost:3030"
    true none).1 (by decide)
  have hprod := (start_analytics_modes "user-1" "key" 1 "http://localhost:3030"
    false none).2.2.2 (by decide)
  exact ⟨by decide, hdev, by decide, hprod.1, hprod.2⟩

/-- A manager constructed with an empty API key and empty identity in a
release build: it is enabled and will post payloads. -/
def emptyIdManager : AnalyticsManager :=
  AnalyticsManager.new "" "" 1 "http://localhost:3030" false

/-- Counterexample to C9 as stated: a Reporter constructed with an empty
API key and an empty identity posts exactly one payload whose `api_key`
and `properties.distinct_id` are both the empty string. -/
theorem payload_empty_identity_counterexample :
    emptyIdManager.enabled = true ∧
    ((send_event emptyIdManager sampleSystem "app_started" none
        (.ok ⟨200⟩)).1.map
      (fun p => (p.index "api_key",
                 (p.index "properties").index "distinct_id"))) =
      [(Json.str "", Json.str "")] := by
  exact ⟨rfl, rfl⟩

/-- Claim C9 (amended): every payload posted by `send_event` carries the
configured API key at `api_key` and the configured identity at
`properties.distinct_id`, provided the extra-properties object does not
itself bind `distinct_id`; both are therefore non-empty whenever the
Reporter was constructed with a non-empty key and identity. -/
theorem payload_identity_amended (m : AnalyticsManager) (sys : SystemInfo)
    (event : String) (properties : Option Json)
    (t : Except String HttpResponse)
    (hkey : m.posthog_api_key ≠ "") (hid : m.distinct_id ≠ "")
    (hover : lookupKv ((((properties.getD .null)).as_object).getD [])
      "distinct_id" = none) :
    ∀ p ∈ (send_event m sys event properties t).1,
      p.index "api_key" = .str m.posthog_api_key ∧
      (p.index "properties").index "distinct_id" = .str m.distinct_id ∧
      p.index "api_key" ≠ .str "" ∧
      (p.index "properties").index "distinct_id" ≠ .str "" := by
  intro p hp
  have hcalls : p = buildPayload m sys event properties := by
    by_cases hen : m.enabled = false
    · simp [send_event, hen] at hp
    · rcases t with e | resp
      · simp [send_event, hen] at hp
        exact hp
      · by_cases hst : statusIsSuccess resp.status = false <;>
          · simp [send_event, hen, hst] at hp
            exact hp
  subst hcalls
  have hapi : (buildPayload m sys event properties).index "api_key" =
      .str m.posthog_api_key := by
    rcases properties with _ | props
    · simp [buildPayload, Json.index, lookupKv]
    · rcases props <;>
        simp [buildPayload, mergeIntoProperties, Json.index, lookupKv,
          insertKv, Json.as_object]
  have hdid : ((buildPayload m sys event properties).index
      "properties").index "distinct_id" = .str m.distinct_id := by
    rcases properties with _ | props
    · simp [buildPayload, Json.index, lookupKv, basePropsKvs]
    · have hext : ((buildPayload m sys event (some props)).index
          "properties") = .obj (extendKvs (basePropsKvs m sys)
            ((props.as_object).getD [])) := by
        rcases props <;>
          simp [buildPayload, mergeIntoProperties, Json.index, lookupKv,
            insertKv, Json.as_object, extendKvs]
      rw [hext]
      have hnone : lookupKv ((props.as_object).getD []) "distinct_id" =
          none := by simpa using hover
      simp only [Json.index]
      rw [lookupKv_extendKvs_of_none _ _ _ hnone]
      simp [basePropsKvs, lookupKv]
  refine ⟨hapi, hdid, ?_, ?_⟩
  · rw [hapi]; intro hc
    exact hkey (Json.str.injEq _ _ ▸ hc)
  · rw [hdid]; intro hc
    exact hid (Json.str.injEq _ _ ▸ hc)

/-- Witness for C9 (amended) at a concrete enabled manager with non-empty
key and identity. -/
theorem payload_identity_amended_witness :
    prodManager.posthog_api_key ≠ "" ∧ prodManager.distinct_id ≠ "" ∧
    (buildPayload prodManager sampleSystem "app_started" none).index
      "api_key" = .str prodManager.posthog_api_key ∧
    ((buildPayload prodManager sampleSystem "app_started" none).index
      "properties").index "distinct_id" = .str prodManager.distinct_id := by
  have h := payload_identity_amended prodManager sampleSystem "app_started"
    none (.ok ⟨200⟩) (by decide) (by decide) rfl
    (buildPayload prodManager sampleSystem "app_started" none)
    (by simp [send_event, prodManager, AnalyticsManager.new, statusIsSuccess])
  exact ⟨by decide, by decide, h.1, h.2.1⟩

end Analytics
